import Mathlib

/-!
Verification of the Content Metrics Pipeline of the
ai-vs-human-content-analysis-dashboard repository.

The embedding follows the source files:
- dashboard.py: load_dataset (cleaning pipeline) and the sidebar filter
  logic of main (date range, author-type and content-type selections);
- dashboard_analysis_report.py: load_and_analyze_data (same cleaning) and
  the groupby aggregations;
- data.py: a standalone EDA script repeating the same steps without guards.

A frame is a list of (index label, record) pairs plus a schema of column
presence flags, mirroring a pandas DataFrame restricted to the columns the
pipeline touches.  Cells are Option-typed; a none stands for NaN.
-/

namespace AVH

/-- Calendar date, the result of parsing a day-month-year string. -/
structure Date where
  day : Nat
  month : Nat
  year : Nat
deriving DecidableEq

/-- A cell of the Date column: raw text before parsing, a parsed datetime
value after parsing, or missing (NaN before parsing, NaT after). -/
inductive DateCell where
  | str (s : String)
  | dat (d : Date)
  | na
deriving DecidableEq

/-- One record (row) of the data set, over the columns the pipeline touches.
A none models a missing (NaN) cell. -/
structure Row where
  date : DateCell
  authorType : Option String
  contentType : Option String
  likes : Option Int
  comments : Option Int
  shares : Option Int
  engagement : Option Int
deriving DecidableEq

/-- Which columns are present in the frame (pandas: membership in
df.columns).  A transformation step only runs if its columns are present. -/
structure Schema where
  hasDate : Bool
  hasAuthorType : Bool
  hasContentType : Bool
  hasLikes : Bool
  hasComments : Bool
  hasShares : Bool
  hasEngagement : Bool
deriving DecidableEq

/-- A pandas DataFrame restricted to the modelled columns: a schema plus the
rows, each carried with its index label. -/
structure DataFrame where
  schema : Schema
  rows : List (Nat × Row)
deriving DecidableEq

/-- Keep the first occurrence of every value, dropping later exact
duplicates; the seen accumulator holds values already emitted. -/
def dedupFirstAux {α : Type} [DecidableEq α] (seen : List α) : List α → List α
  | [] => []
  | x :: xs => if x ∈ seen then dedupFirstAux seen xs else x :: dedupFirstAux (x :: seen) xs

/-- First-occurrence deduplication of a list. -/
def dedupFirst {α : Type} [DecidableEq α] (l : List α) : List α :=
  dedupFirstAux [] l

/-- pandas drop_duplicates on labelled rows: a row is dropped exactly when
an earlier row is equal on all columns; labels ride along untouched. -/
def dropDupAux {α : Type} [DecidableEq α] (seen : List α) :
    List (Nat × α) → List (Nat × α)
  | [] => []
  | p :: ps => if p.2 ∈ seen then dropDupAux seen ps else p :: dropDupAux (p.2 :: seen) ps

/-- pandas reset_index(drop=True): discard the old labels and renumber the
rows contiguously from zero. -/
def relabel {α : Type} (rows : List (Nat × α)) : List (Nat × α) :=
  (List.range rows.length).zip (rows.map Prod.snd)

/-- Leap year rule of the Gregorian calendar. -/
def isLeap (y : Nat) : Bool :=
  (y % 4 == 0 && y % 100 != 0) || y % 400 == 0

/-- Number of days of a month, leap years included. -/
def daysInMonth (y m : Nat) : Nat :=
  if m = 2 then (if isLeap y then 29 else 28)
  else if m = 4 ∨ m = 6 ∨ m = 9 ∨ m = 11 then 30
  else 31

/-- Split a character list at every dash, keeping empty pieces, the way
String.splitOn does for a one-character separator. -/
def splitDashAux : List Char → List Char → List (List Char)
  | [], acc => [acc.reverse]
  | c :: cs, acc =>
    if c = '-' then acc.reverse :: splitDashAux cs []
    else splitDashAux cs (c :: acc)

/-- Decimal value of a digit list. -/
def digitsToNat (cs : List Char) : Nat :=
  cs.foldl (fun n c => n * 10 + (c.toNat - '0'.toNat)) 0

/-- strptime with format %d-%m-%Y: three dash-separated all-digit fields,
day and month of one or two digits, year of at most four, validated against
the calendar.  Returns none when the text does not match the format. -/
def parseDMY (s : String) : Option Date :=
  match splitDashAux s.data [] with
  | [ds, ms, ys] =>
    if (ds.all Char.isDigit && ms.all Char.isDigit && ys.all Char.isDigit) = true then
      if 1 ≤ ds.length ∧ ds.length ≤ 2 ∧ 1 ≤ ms.length ∧ ms.length ≤ 2 ∧
         1 ≤ ys.length ∧ ys.length ≤ 4 ∧
         1 ≤ digitsToNat ms ∧ digitsToNat ms ≤ 12 ∧ 1 ≤ digitsToNat ds ∧
         digitsToNat ds ≤ daysInMonth (digitsToNat ys) (digitsToNat ms)
      then some ⟨digitsToNat ds, digitsToNat ms, digitsToNat ys⟩ else none
    else none
  | _ => none

/-- One cell under pd.to_datetime(.., format=%d-%m-%Y, errors=coerce or
raise): missing stays missing, already-parsed stays, text parses to a date
or either coerces to NaT or raises. -/
def to_datetime_cell (coerce : Bool) (c : DateCell) : Except String DateCell :=
  match c with
  | DateCell.na => Except.ok DateCell.na
  | DateCell.dat d => Except.ok (DateCell.dat d)
  | DateCell.str s =>
    match parseDMY s with
    | some d => Except.ok (DateCell.dat d)
    | none =>
      if coerce then Except.ok DateCell.na
      else Except.error ("time data " ++ s ++ " does not match format %d-%m-%Y")

/-- pd.to_datetime over a whole column; the first failing cell aborts when
errors is not coerce. -/
def to_datetime (coerce : Bool) : List DateCell → Except String (List DateCell)
  | [] => Except.ok []
  | c :: cs =>
    match to_datetime_cell coerce c, to_datetime coerce cs with
    | Except.ok c2, Except.ok cs2 => Except.ok (c2 :: cs2)
    | Except.error e, _ => Except.error e
    | _, Except.error e => Except.error e

/-- The coerced value of one Date cell: what errors=coerce writes back. -/
def coerceDateCell (c : DateCell) : DateCell :=
  match c with
  | DateCell.na => DateCell.na
  | DateCell.dat d => DateCell.dat d
  | DateCell.str s =>
    match parseDMY s with
    | some d => DateCell.dat d
    | none => DateCell.na

/-- The Date column of a frame, as a list of cells. -/
def dateCol (rows : List (Nat × Row)) : List DateCell :=
  rows.map (fun p => p.2.date)

/-- Assign a list of cells back into the Date column, row by row. -/
def setDate (rows : List (Nat × Row)) (cells : List DateCell) : List (Nat × Row) :=
  List.zipWith (fun p c => (p.1, { p.2 with date := c })) rows cells

/-- Python str.strip: drop leading and trailing whitespace. -/
def pyStrip (s : String) : String :=
  String.mk (((s.data.dropWhile Char.isWhitespace).reverse.dropWhile Char.isWhitespace).reverse)

/-- Worker for Python str.title: uppercase a letter that follows a
non-letter, lowercase a letter that follows a letter. -/
def titleAux : Bool → List Char → List Char
  | _, [] => []
  | prevAlpha, c :: cs =>
    if c.isAlpha then (if prevAlpha then c.toLower else c.toUpper) :: titleAux true cs
    else c :: titleAux false cs

/-- Python str.title. -/
def pyTitle (s : String) : String :=
  String.mk (titleAux false s.data)

/-- pandas astype(str) on one object cell: NaN becomes the literal string
nan, any actual string is kept as is. -/
def astypeStr (c : Option String) : String :=
  match c with
  | none => "nan"
  | some s => s

/-- The Author_Type normalization of the pipeline:
astype(str).str.strip().str.title() applied to one cell. -/
def authorNorm (c : Option String) : String :=
  pyTitle (pyStrip (astypeStr c))

/-- Step 1 of load_dataset: if a Date column exists, parse it with
pd.to_datetime(format=%d-%m-%Y); the dashboard passes errors=coerce. -/
def stepDate (coerce : Bool) (df : DataFrame) : Except String DataFrame :=
  if df.schema.hasDate = true then
    match to_datetime coerce (dateCol df.rows) with
    | Except.ok cells => Except.ok { df with rows := setDate df.rows cells }
    | Except.error e => Except.error e
  else Except.ok df

/-- Step 2 of load_dataset: if an Author_Type column exists, replace it by
astype(str).str.strip().str.title(). -/
def stepAuthor (df : DataFrame) : DataFrame :=
  if df.schema.hasAuthorType = true then
    { df with rows := df.rows.map (fun p => (p.1, { p.2 with authorType := some (authorNorm p.2.authorType) })) }
  else df

/-- Step 3 of load_dataset: if Likes, Comments and Shares are all present,
recompute Engagement_Score as Likes.fillna(0) + Comments.fillna(0)*2 +
Shares.fillna(0)*3. -/
def stepEngagement (df : DataFrame) : DataFrame :=
  if (df.schema.hasLikes && df.schema.hasComments && df.schema.hasShares) = true then
    { df with
      schema := { df.schema with hasEngagement := true },
      rows := df.rows.map (fun p => (p.1,
        { p.2 with engagement := some (p.2.likes.getD 0 + p.2.comments.getD 0 * 2 + p.2.shares.getD 0 * 3) })) }
  else df

/-- pandas drop_duplicates on a frame: drop rows equal on all columns to an
earlier row, keeping the first occurrence and the surviving labels. -/
def drop_duplicates (df : DataFrame) : DataFrame :=
  { df with rows := dropDupAux [] df.rows }

/-- pandas reset_index(drop=True) on a frame. -/
def reset_index (df : DataFrame) : DataFrame :=
  { df with rows := relabel df.rows }

/-- The cleaning pipeline of load_dataset in dashboard.py (duplicated in
load_and_analyze_data of dashboard_analysis_report.py), applied to the
frame produced by read_csv: coerced date parsing, author-type
normalization, engagement-score derivation, then deduplication and
reindexing.  Each step is guarded by column presence. -/
def load_dataset (df : DataFrame) : Except String DataFrame :=
  match stepDate true df with
  | Except.error e => Except.error e
  | Except.ok d1 => Except.ok (reset_index (drop_duplicates (stepEngagement (stepAuthor d1))))

/-- Per-row effect of step 1 on a frame that has the Date column. -/
def applyDate (sch : Schema) (r : Row) : Row :=
  if sch.hasDate = true then { r with date := coerceDateCell r.date } else r

/-- Per-row effect of step 2 on a frame that has the Author_Type column. -/
def applyAuthor (sch : Schema) (r : Row) : Row :=
  if sch.hasAuthorType = true then { r with authorType := some (authorNorm r.authorType) } else r

/-- Per-row effect of step 3 when Likes, Comments and Shares are present. -/
def applyEngagement (sch : Schema) (r : Row) : Row :=
  if (sch.hasLikes && sch.hasComments && sch.hasShares) = true then
    { r with engagement := some (r.likes.getD 0 + r.comments.getD 0 * 2 + r.shares.getD 0 * 3) }
  else r

/-- Combined per-row transformation of the three guarded cleaning steps. -/
def transformRow (sch : Schema) (r : Row) : Row :=
  applyEngagement sch (applyAuthor sch (applyDate sch r))

/-- Schema of the cleaned frame: the Engagement_Score column appears
whenever the three component columns are present. -/
def outSchema (sch : Schema) : Schema :=
  if (sch.hasLikes && sch.hasComments && sch.hasShares) = true then
    { sch with hasEngagement := true }
  else sch

/-- Lexicographic order on dates, as the Bool the comparison mask uses. -/
def dateLE (a b : Date) : Bool :=
  decide (a.year < b.year ∨ (a.year = b.year ∧
    (a.month < b.month ∨ (a.month = b.month ∧ a.day ≤ b.day))))

/-- The boolean mask Date >= start and Date <= end of dashboard.py; a
missing date (NaT) compares false and is filtered out. -/
def dateInRange (s e : Date) (c : DateCell) : Bool :=
  match c with
  | DateCell.dat d => dateLE s d && dateLE d e
  | _ => false

/-- pandas Series.isin on one optional cell; NaN is never in the list. -/
def isinOpt (v : Option String) (sel : List String) : Bool :=
  match v with
  | some a => sel.contains a
  | none => false

/-- df.loc applied with a boolean row mask: keep the rows satisfying the
predicate, labels untouched, order preserved. -/
def dfFilter (df : DataFrame) (p : Row → Bool) : DataFrame :=
  { df with rows := df.rows.filter (fun q => p q.2) }

/-- The date-range filter of main in dashboard.py: applied only when a
range was produced and the Date column exists. -/
def filterByDate (dr : Option (Date × Date)) (df : DataFrame) : DataFrame :=
  match dr with
  | some (s, e) =>
    if df.schema.hasDate = true then dfFilter df (fun r => dateInRange s e r.date) else df
  | none => df

/-- The author-type filter of main: a nonempty selection restricts the
rows via isin; an empty selection leaves the frame untouched. -/
def filterByAuthor (sel : List String) (df : DataFrame) : DataFrame :=
  if sel ≠ [] ∧ df.schema.hasAuthorType = true then
    dfFilter df (fun r => isinOpt r.authorType sel)
  else df

/-- The content-type filter of main, same shape as the author filter. -/
def filterByContent (sel : List String) (df : DataFrame) : DataFrame :=
  if sel ≠ [] ∧ df.schema.hasContentType = true then
    dfFilter df (fun r => isinOpt r.contentType sel)
  else df

/-- The filter block of main in dashboard.py, lines 104 to 114: date range,
then author types, then content types, each step conditional. -/
def applyFilters (df : DataFrame) (dr : Option (Date × Date))
    (asel csel : List String) : DataFrame :=
  filterByContent csel (filterByAuthor asel (filterByDate dr df))

/-- Mean of a list of integer values as a rational; none when the list is
empty, matching the NaN pandas mean yields on an all-null group. -/
def meanOpt (vals : List Int) : Option ℚ :=
  if vals.length = 0 then none
  else some ((vals.map (fun v => (v : ℚ))).sum / (vals.length : ℚ))

/-- groupby(key)[metric].mean(): the distinct non-null key values (null
keys are dropped, keys sorted as pandas sorts groups), each mapped to the
mean of the non-null metric values of its rows. -/
def groupbyMean (rows : List (Nat × Row)) (key : Row → Option String)
    (metric : Row → Option Int) : List (String × Option ℚ) :=
  (List.insertionSort (fun a b => a ≤ b) (dedupFirst (rows.filterMap (fun p => key p.2)))).map
    (fun k => (k, meanOpt ((rows.filter (fun p => key p.2 == some k)).filterMap
      (fun p => metric p.2))))

/-- The aggregation behind the bar chart of dashboard.py, line 138, and the
per-author means of the report: group the frame by Author_Type and take
the mean Engagement_Score. -/
def engagement_by_author (df : DataFrame) : List (String × Option ℚ) :=
  groupbyMean df.rows (fun r => r.authorType) (fun r => r.engagement)

/-- A row with every cell missing, the base of the concrete examples. -/
def exRowBase : Row :=
  ⟨DateCell.na, none, none, none, none, none, none⟩

/-- Schema with only the three engagement component columns. -/
def schemaLCS : Schema :=
  ⟨false, false, false, true, true, true, false⟩

/-- Schema with only the Author_Type column. -/
def schemaA : Schema :=
  ⟨false, true, false, false, false, false, false⟩

/-- Schema with only the Date column. -/
def schemaD : Schema :=
  ⟨true, false, false, false, false, false, false⟩

/-- Example input: one row with 10 likes, missing comments, 1 share. -/
def exDF1 : DataFrame :=
  ⟨schemaLCS, [(0, { exRowBase with likes := some 10, shares := some 1 })]⟩

/-- The single cleaned row of exDF1. -/
def exRow1out : Row :=
  { exRowBase with likes := some 10, shares := some 1, engagement := some 13 }

/-- The cleaned output of exDF1. -/
def exOut1 : DataFrame :=
  ⟨⟨false, false, false, true, true, true, true⟩, [(0, exRow1out)]⟩

/-- Example input with an exact duplicate pair and a third row that is
distinct raw text but normalizes to the same author value. -/
def exDF2 : DataFrame :=
  ⟨schemaA, [(0, { exRowBase with authorType := some "ai" }),
             (1, { exRowBase with authorType := some "ai" }),
             (2, { exRowBase with authorType := some "ai " })]⟩

/-- The cleaned output of exDF2: all three rows collapse into one. -/
def exOut2 : DataFrame :=
  ⟨schemaA, [(0, { exRowBase with authorType := some "Ai" })]⟩

/-- Example input with one parseable and one unparseable date string. -/
def exDF3 : DataFrame :=
  ⟨schemaD, [(0, { exRowBase with date := DateCell.str "07-03-2024" }),
             (1, { exRowBase with date := DateCell.str "31-02-2024" })]⟩

/-- The cleaned output of exDF3: the bad date became missing, no row lost. -/
def exOut3 : DataFrame :=
  ⟨schemaD, [(0, { exRowBase with date := DateCell.dat ⟨7, 3, 2024⟩ }),
             (1, exRowBase)]⟩

/-- Example input for the date-range filter: one date inside 2024, one in
2025. -/
def exDF5 : DataFrame :=
  ⟨schemaD, [(0, { exRowBase with date := DateCell.dat ⟨15, 6, 2024⟩ }),
             (1, { exRowBase with date := DateCell.dat ⟨15, 6, 2025⟩ })]⟩

/-- Example input with an empty schema: every cleaning step is skipped. -/
def exDF6 : DataFrame :=
  ⟨⟨false, false, false, false, false, false, false⟩, [(0, exRowBase)]⟩

/-- Example input whose author value needs trimming and casing. -/
def exDF7 : DataFrame :=
  ⟨schemaA, [(0, { exRowBase with authorType := some "ai " })]⟩

/-- The cleaned output of exDF7. -/
def exOut7 : DataFrame :=
  ⟨schemaA, [(0, { exRowBase with authorType := some "Ai" })]⟩

/-- Example input with a missing likes cell next to present components. -/
def exDF9 : DataFrame :=
  ⟨schemaLCS, [(0, { exRowBase with comments := some 2 })]⟩

/-- The single cleaned row of exDF9: likes stays missing, score counts it
as zero. -/
def exRow9out : Row :=
  { exRowBase with comments := some 2, engagement := some 4 }

/-- The cleaned output of exDF9. -/
def exOut9 : DataFrame :=
  ⟨⟨false, false, false, true, true, true, true⟩, [(0, exRow9out)]⟩

/-- Example input whose author cell is missing. -/
def exDF10 : DataFrame :=
  ⟨schemaA, [(0, exRowBase)]⟩

/-- The cleaned output of exDF10: the missing author became the literal
string Nan. -/
def exOut10 : DataFrame :=
  ⟨schemaA, [(0, { exRowBase with authorType := some "Nan" })]⟩

theorem mem_dedupFirstAux {α : Type} [DecidableEq α] {seen l : List α} {a : α} :
    a ∈ dedupFirstAux seen l ↔ a ∈ l ∧ a ∉ seen := by
  induction l generalizing seen with
  | nil => simp [dedupFirstAux]
  | cons x xs ih =>
    by_cases hx : x ∈ seen
    · simp only [dedupFirstAux, if_pos hx, ih, List.mem_cons]
      constructor
      · rintro ⟨h1, h2⟩
        exact ⟨Or.inr h1, h2⟩
      · rintro ⟨h1 | h1, h2⟩
        · exact absurd (h1 ▸ hx) h2
        · exact ⟨h1, h2⟩
    · simp only [dedupFirstAux, if_neg hx, List.mem_cons, ih]
      by_cases hax : a = x <;> simp [hax, hx]

theorem nodup_dedupFirstAux {α : Type} [DecidableEq α] (seen l : List α) :
    (dedupFirstAux seen l).Nodup := by
  induction l generalizing seen with
  | nil => simp [dedupFirstAux]
  | cons x xs ih =>
    by_cases hx : x ∈ seen
    · simpa [dedupFirstAux, hx] using ih seen
    · simp only [dedupFirstAux, if_neg hx]
      refine List.nodup_cons.mpr ⟨?_, ih (x :: seen)⟩
      intro hmem
      exact (mem_dedupFirstAux.mp hmem).2 (List.mem_cons_self x seen)

theorem dedupFirstAux_sublist {α : Type} [DecidableEq α] (seen l : List α) :
    List.Sublist (dedupFirstAux seen l) l := by
  induction l generalizing seen with
  | nil => simp [dedupFirstAux]
  | cons x xs ih =>
    by_cases hx : x ∈ seen
    · simp only [dedupFirstAux, if_pos hx]
      exact (ih seen).cons x
    · simp only [dedupFirstAux, if_neg hx]
      exact (ih (x :: seen)).cons₂ x

theorem mem_dedupFirst {α : Type} [DecidableEq α] {l : List α} {a : α} :
    a ∈ dedupFirst l ↔ a ∈ l := by
  simp [dedupFirst, mem_dedupFirstAux]

theorem toFinset_dedupFirst {α : Type} [DecidableEq α] (l : List α) :
    (dedupFirst l).toFinset = l.toFinset := by
  ext a
  simp [mem_dedupFirst]

theorem length_dedupFirst {α : Type} [DecidableEq α] (l : List α) :
    (dedupFirst l).length = l.toFinset.card := by
  rw [← toFinset_dedupFirst]
  exact (List.toFinset_card_of_nodup (nodup_dedupFirstAux [] l)).symm

theorem indexOf_dedupFirstAux {α : Type} [DecidableEq α] {seen l : List α} {a b : α}
    (ha : a ∈ dedupFirstAux seen l) (hb : b ∈ dedupFirstAux seen l) :
    ((dedupFirstAux seen l).indexOf a < (dedupFirstAux seen l).indexOf b ↔
      l.indexOf a < l.indexOf b) := by
  induction l generalizing seen with
  | nil => simp [dedupFirstAux] at ha
  | cons x xs ih =>
    by_cases hx : x ∈ seen
    · rw [dedupFirstAux, if_pos hx] at ha hb ⊢
      have hane : a ≠ x := fun h => (mem_dedupFirstAux.mp ha).2 (h ▸ hx)
      have hbne : b ≠ x := fun h => (mem_dedupFirstAux.mp hb).2 (h ▸ hx)
      rw [List.indexOf_cons_ne xs (Ne.symm hane), List.indexOf_cons_ne xs (Ne.symm hbne),
        Nat.succ_lt_succ_iff]
      exact ih ha hb
    · rw [dedupFirstAux, if_neg hx] at ha hb ⊢
      by_cases hax : a = x
      · subst hax
        by_cases hbx : b = a
        · subst hbx
          simp
        · simp [Ne.symm hbx]
      · have ha2 : a ∈ dedupFirstAux (x :: seen) xs := by
          rcases List.mem_cons.mp ha with h | h
          · exact absurd h hax
          · exact h
        by_cases hbx : b = x
        · subst hbx
          simp [Ne.symm hax]
        · have hb2 : b ∈ dedupFirstAux (x :: seen) xs := by
            rcases List.mem_cons.mp hb with h | h
            · exact absurd h hbx
            · exact h
          rw [List.indexOf_cons_ne _ (Ne.symm hax), List.indexOf_cons_ne _ (Ne.symm hbx),
            List.indexOf_cons_ne _ (Ne.symm hax), List.indexOf_cons_ne _ (Ne.symm hbx),
            Nat.succ_lt_succ_iff, Nat.succ_lt_succ_iff]
          exact ih ha2 hb2

theorem map_snd_dropDupAux {α : Type} [DecidableEq α] (seen : List α)
    (ps : List (Nat × α)) :
    (dropDupAux seen ps).map Prod.snd = dedupFirstAux seen (ps.map Prod.snd) := by
  induction ps generalizing seen with
  | nil => simp [dropDupAux, dedupFirstAux]
  | cons p ps ih =>
    by_cases hp : p.2 ∈ seen
    · simp [dropDupAux, dedupFirstAux, hp, ih]
    · simp [dropDupAux, dedupFirstAux, hp, ih]

theorem map_snd_relabel {α : Type} (rows : List (Nat × α)) :
    (relabel rows).map Prod.snd = rows.map Prod.snd := by
  refine List.map_snd_zip _ _ ?_
  simp [relabel]

theorem map_fst_relabel {α : Type} (rows : List (Nat × α)) :
    (relabel rows).map Prod.fst = List.range rows.length := by
  refine List.map_fst_zip _ _ ?_
  simp [relabel]

theorem length_relabel {α : Type} (rows : List (Nat × α)) :
    (relabel rows).length = rows.length := by
  simp [relabel]

theorem mem_relabel {α : Type} {rows : List (Nat × α)} {pr : Nat × α}
    (h : pr ∈ relabel rows) : pr.2 ∈ rows.map Prod.snd := by
  have := List.of_mem_zip (by simpa [relabel] using h)
  exact this.2

theorem to_datetime_cell_coerce (c : DateCell) :
    to_datetime_cell true c = Except.ok (coerceDateCell c) := by
  cases c with
  | na => rfl
  | dat d => rfl
  | str s =>
    simp only [to_datetime_cell, coerceDateCell]
    cases parseDMY s <;> simp

theorem to_datetime_coerce (cells : List DateCell) :
    to_datetime true cells = Except.ok (cells.map coerceDateCell) := by
  induction cells with
  | nil => rfl
  | cons c cs ih => simp [to_datetime, to_datetime_cell_coerce, ih]

theorem setDate_map (rows : List (Nat × Row)) (f : DateCell → DateCell) :
    setDate rows ((dateCol rows).map f) =
      rows.map (fun p => (p.1, { p.2 with date := f p.2.date })) := by
  induction rows with
  | nil => rfl
  | cons p ps ih => simp [setDate, dateCol, List.zipWith] at ih ⊢; exact ih

theorem stepDate_coerce (df : DataFrame) :
    stepDate true df =
      Except.ok { df with rows := df.rows.map (fun p => (p.1, applyDate df.schema p.2)) } := by
  cases h : df.schema.hasDate with
  | true =>
    simp only [stepDate, h, if_pos, to_datetime_coerce, dateCol]
    rw [show (df.rows.map fun p => p.2.date).map coerceDateCell =
        (dateCol df.rows).map coerceDateCell from rfl, setDate_map]
    simp [applyDate, h]
  | false =>
    simp [stepDate, h, applyDate]

theorem stepAuthor_eq (df : DataFrame) :
    stepAuthor df = { df with rows := df.rows.map (fun p => (p.1, applyAuthor df.schema p.2)) } := by
  cases h : df.schema.hasAuthorType with
  | true => simp [stepAuthor, h, applyAuthor]
  | false => simp [stepAuthor, h, applyAuthor]

theorem stepEngagement_eq (df : DataFrame) :
    stepEngagement df =
      { schema := outSchema df.schema,
        rows := df.rows.map (fun p => (p.1, applyEngagement df.schema p.2)) } := by
  cases h : (df.schema.hasLikes && df.schema.hasComments && df.schema.hasShares) with
  | true => simp [stepEngagement, h, applyEngagement, outSchema]
  | false => simp [stepEngagement, h, applyEngagement, outSchema]

theorem load_dataset_eq (df : DataFrame) :
    load_dataset df =
      Except.ok
        ⟨outSchema df.schema,
         relabel (dropDupAux [] (df.rows.map (fun p => (p.1, transformRow df.schema p.2))))⟩ := by
  simp only [load_dataset, stepDate_coerce, stepAuthor_eq, stepEngagement_eq,
    drop_duplicates, reset_index, List.map_map]
  rfl

theorem transformRow_likes (sch : Schema) (r : Row) :
    (transformRow sch r).likes = r.likes := by
  simp only [transformRow, applyEngagement, applyAuthor, applyDate]
  split <;> split <;> split <;> rfl

theorem transformRow_comments (sch : Schema) (r : Row) :
    (transformRow sch r).comments = r.comments := by
  simp only [transformRow, applyEngagement, applyAuthor, applyDate]
  split <;> split <;> split <;> rfl

theorem transformRow_shares (sch : Schema) (r : Row) :
    (transformRow sch r).shares = r.shares := by
  simp only [transformRow, applyEngagement, applyAuthor, applyDate]
  split <;> split <;> split <;> rfl

theorem transformRow_contentType (sch : Schema) (r : Row) :
    (transformRow sch r).contentType = r.contentType := by
  simp only [transformRow, applyEngagement, applyAuthor, applyDate]
  split <;> split <;> split <;> rfl

theorem transformRow_engagement (sch : Schema) (r : Row)
    (h3 : (sch.hasLikes && sch.hasComments && sch.hasShares) = true) :
    (transformRow sch r).engagement =
      some (r.likes.getD 0 + r.comments.getD 0 * 2 + r.shares.getD 0 * 3) := by
  simp only [transformRow, applyEngagement, h3, if_pos]
  simp only [applyAuthor, applyDate]
  split <;> split <;> rfl

theorem transformRow_engagement_skip (sch : Schema) (r : Row)
    (h3 : (sch.hasLikes && sch.hasComments && sch.hasShares) = false) :
    (transformRow sch r).engagement = r.engagement := by
  simp only [transformRow, applyEngagement, h3]
  simp only [applyAuthor, applyDate, Bool.false_eq_true, if_false]
  split <;> split <;> rfl

theorem transformRow_authorType (sch : Schema) (r : Row)
    (ha : sch.hasAuthorType = true) :
    (transformRow sch r).authorType = some (authorNorm r.authorType) := by
  have hdate : (applyDate sch r).authorType = r.authorType := by
    simp only [applyDate]; split <;> rfl
  simp only [transformRow, applyEngagement, applyAuthor, ha, if_pos, hdate]
  split <;> rfl

theorem transformRow_date (sch : Schema) (r : Row) (hd : sch.hasDate = true) :
    (transformRow sch r).date = coerceDateCell r.date := by
  simp only [transformRow, applyEngagement, applyAuthor, applyDate, hd, if_pos]
  split <;> split <;> rfl

theorem mem_load_dataset {df out : DataFrame}
    (hok : load_dataset df = Except.ok out) {pr : Nat × Row} (hpr : pr ∈ out.rows) :
    ∃ p₀ ∈ df.rows, pr.2 = transformRow df.schema p₀.2 := by
  rw [load_dataset_eq] at hok
  have hout : out =
      ⟨outSchema df.schema,
       relabel (dropDupAux [] (df.rows.map (fun p => (p.1, transformRow df.schema p.2))))⟩ :=
    (Except.ok.injEq _ _).mp hok.symm
  subst hout
  have h1 : pr.2 ∈ (dropDupAux [] (df.rows.map
      (fun p => (p.1, transformRow df.schema p.2)))).map Prod.snd :=
    mem_relabel hpr
  rw [map_snd_dropDupAux] at h1
  have h2 := mem_dedupFirstAux.mp h1
  have h3 : pr.2 ∈ df.rows.map (fun p => transformRow df.schema p.2) := by
    simpa [List.map_map, Function.comp] using h2.1
  rcases List.mem_map.mp h3 with ⟨p₀, hp₀, heq⟩
  exact ⟨p₀, hp₀, heq.symm⟩

theorem out_schema_load_dataset {df out : DataFrame}
    (hok : load_dataset df = Except.ok out) : out.schema = outSchema df.schema := by
  rw [load_dataset_eq] at hok
  have := (Except.ok.injEq _ _).mp hok
  rw [← this]

/-- Claim C1: on the cleaned frame, whenever Likes, Comments and Shares are all
present in the input schema, every row's engagement score equals
likes + 2*comments + 3*shares with a missing component counted as zero;
when any of the three is absent the pipeline does not produce the
Engagement_Score column (its presence flag is left exactly as it came
in). -/
theorem spec_c1 (df out : DataFrame) (hok : load_dataset df = Except.ok out) :
    ((df.schema.hasLikes && df.schema.hasComments && df.schema.hasShares) = true →
      ∀ pr ∈ out.rows,
        pr.2.engagement =
          some (pr.2.likes.getD 0 + pr.2.comments.getD 0 * 2 + pr.2.shares.getD 0 * 3))
    ∧ ((df.schema.hasLikes && df.schema.hasComments && df.schema.hasShares) = false →
      out.schema.hasEngagement = df.schema.hasEngagement) := by
  constructor
  · intro h3 pr hpr
    obtain ⟨p₀, hp₀, heq⟩ := mem_load_dataset hok hpr
    rw [heq, transformRow_engagement _ _ h3, transformRow_likes, transformRow_comments,
      transformRow_shares]
  · intro h3
    rw [out_schema_load_dataset hok]
    simp [outSchema, h3]

/-- Witness for C1 at a concrete frame: a row with 10 likes, missing
comments and 1 share gets engagement 10 + 0*2 + 1*3. -/
theorem spec_c1_witness :
    ((0 : Nat), exRow1out).2.engagement =
      some (((0 : Nat), exRow1out).2.likes.getD 0 + ((0 : Nat), exRow1out).2.comments.getD 0 * 2 +
        ((0 : Nat), exRow1out).2.shares.getD 0 * 3) :=
  (spec_c1 exDF1 exOut1 rfl).1 rfl ((0 : Nat), exRow1out) (List.mem_singleton.mpr rfl)

/-- Claim C3: date parsing with errors=coerce maps every cell; an unparseable
string becomes missing, a parseable one becomes its date, no error is
raised, the column keeps its length (no row dropped by the parse step),
and in the cleaned frame every row's date is the coerced value of the
matching input row's date. -/
theorem spec_c3 (cells : List DateCell) (df out : DataFrame) :
    to_datetime true cells = Except.ok (cells.map coerceDateCell)
    ∧ (cells.map coerceDateCell).length = cells.length
    ∧ (∀ s, parseDMY s = none → coerceDateCell (DateCell.str s) = DateCell.na)
    ∧ (∀ s d, parseDMY s = some d → coerceDateCell (DateCell.str s) = DateCell.dat d)
    ∧ (stepDate true df).isOk = true
    ∧ (∀ d1, stepDate true df = Except.ok d1 → d1.rows.length = df.rows.length)
    ∧ (load_dataset df = Except.ok out → df.schema.hasDate = true →
        ∀ pr ∈ out.rows, ∃ p₀ ∈ df.rows, pr.2.date = coerceDateCell p₀.2.date) := by
  refine ⟨to_datetime_coerce cells, List.length_map _ _, ?_, ?_, ?_, ?_, ?_⟩
  · intro s h
    simp [coerceDateCell, h]
  · intro s d h
    simp [coerceDateCell, h]
  · rw [stepDate_coerce]
    rfl
  · intro d1 h
    rw [stepDate_coerce] at h
    have hd1 : { df with rows := df.rows.map (fun p => (p.1, applyDate df.schema p.2)) } = d1 :=
      (Except.ok.injEq _ _).mp h
    rw [← hd1]
    simp
  · intro hok hd pr hpr
    obtain ⟨p₀, hp₀, heq⟩ := mem_load_dataset hok hpr
    exact ⟨p₀, hp₀, by rw [heq, transformRow_date _ _ hd]⟩

/-- Witness for C3 at concrete inputs: February 31st fails to parse and
coerces to missing, a valid date parses, and the date step succeeds on a
concrete frame holding both. -/
theorem spec_c3_witness :
    coerceDateCell (DateCell.str "31-02-2024") = DateCell.na
    ∧ coerceDateCell (DateCell.str "07-03-2024") = DateCell.dat ⟨7, 3, 2024⟩
    ∧ (stepDate true exDF3).isOk = true :=
  ⟨(spec_c3 [] exDF3 exOut3).2.2.1 "31-02-2024" (by decide),
   (spec_c3 [] exDF3 exOut3).2.2.2.1 "07-03-2024" ⟨7, 3, 2024⟩ (by decide),
   (spec_c3 [] exDF3 exOut3).2.2.2.2.1⟩

/-- Claim C4: the filter block applied with no constraints at all returns the
frame unchanged, and each individual empty or omitted constraint leaves
the frame untouched rather than matching nothing. -/
theorem spec_c4 (df : DataFrame) :
    applyFilters df none [] [] = df
    ∧ filterByDate none df = df
    ∧ filterByAuthor [] df = df
    ∧ filterByContent [] df = df := by
  refine ⟨?_, rfl, ?_, ?_⟩ <;>
    simp [applyFilters, filterByDate, filterByAuthor, filterByContent]

/-- Claim C6: the cleaning pipeline never fails whatever columns are absent, and
each step with a missing required column is the identity on the frame. -/
theorem spec_c6 (df : DataFrame) :
    (load_dataset df).isOk = true
    ∧ (df.schema.hasDate = false → stepDate true df = Except.ok df)
    ∧ (df.schema.hasAuthorType = false → stepAuthor df = df)
    ∧ ((df.schema.hasLikes && df.schema.hasComments && df.schema.hasShares) = false →
        stepEngagement df = df) := by
  refine ⟨?_, ?_, ?_, ?_⟩
  · rw [load_dataset_eq]
    rfl
  · intro h
    simp [stepDate, h]
  · intro h
    simp [stepAuthor, h]
  · intro h
    simp [stepEngagement, h]

/-- Witness for C6 at a concrete frame missing every optional column:
the pipeline succeeds and every step is the identity. -/
theorem spec_c6_witness :
    (load_dataset exDF6).isOk = true
    ∧ stepDate true exDF6 = Except.ok exDF6
    ∧ stepAuthor exDF6 = exDF6
    ∧ stepEngagement exDF6 = exDF6 :=
  ⟨(spec_c6 exDF6).1, (spec_c6 exDF6).2.1 rfl, (spec_c6 exDF6).2.2.1 rfl,
   (spec_c6 exDF6).2.2.2 rfl⟩

theorem rows_filterByDate_sublist (dr : Option (Date × Date)) (df : DataFrame) :
    List.Sublist (filterByDate dr df).rows df.rows := by
  rcases dr with _ | ⟨s, e⟩
  · exact List.Sublist.refl _
  · simp only [filterByDate]
    split
    · exact List.filter_sublist _
    · exact List.Sublist.refl _

theorem rows_filterByAuthor_sublist (sel : List String) (df : DataFrame) :
    List.Sublist (filterByAuthor sel df).rows df.rows := by
  simp only [filterByAuthor]
  split
  · exact List.filter_sublist _
  · exact List.Sublist.refl _

theorem rows_filterByContent_sublist (sel : List String) (df : DataFrame) :
    List.Sublist (filterByContent sel df).rows df.rows := by
  simp only [filterByContent]
  split
  · exact List.filter_sublist _
  · exact List.Sublist.refl _

/-- Claim C5: filtering by a date range yields a subsequence of the input frame
in the original order, made only of rows of the input, and every surviving
row carries a parsed date lying inside the inclusive bounds. -/
theorem spec_c5 (df : DataFrame) (s e : Date) (asel csel : List String)
    (hd : df.schema.hasDate = true) :
    List.Sublist (applyFilters df (some (s, e)) asel csel).rows df.rows
    ∧ ∀ pr ∈ (applyFilters df (some (s, e)) asel csel).rows,
        pr ∈ df.rows ∧ ∃ d, pr.2.date = DateCell.dat d ∧
          dateLE s d = true ∧ dateLE d e = true := by
  have hsub2 : List.Sublist (applyFilters df (some (s, e)) asel csel).rows
      (filterByDate (some (s, e)) df).rows :=
    List.Sublist.trans (rows_filterByContent_sublist csel _)
      (rows_filterByAuthor_sublist asel _)
  have hdate : filterByDate (some (s, e)) df =
      dfFilter df (fun r => dateInRange s e r.date) := by
    simp [filterByDate, hd]
  constructor
  · exact List.Sublist.trans hsub2 (rows_filterByDate_sublist _ _)
  · intro pr hpr
    have hmem : pr ∈ (filterByDate (some (s, e)) df).rows := hsub2.subset hpr
    rw [hdate] at hmem
    have hmem2 := List.mem_filter.mp hmem
    refine ⟨hmem2.1, ?_⟩
    have hpred : dateInRange s e pr.2.date = true := hmem2.2
    cases hc : pr.2.date with
    | str t =>
      rw [hc] at hpred
      simp [dateInRange] at hpred
    | na =>
      rw [hc] at hpred
      simp [dateInRange] at hpred
    | dat d =>
      rw [hc] at hpred
      simp only [dateInRange, Bool.and_eq_true] at hpred
      exact ⟨d, rfl, hpred.1, hpred.2⟩

/-- Witness for C5 at a concrete frame and range: the 2024 row survives
with its date inside the bounds, the 2025 row is gone. -/
theorem spec_c5_witness :
    exDF5.schema.hasDate = true
    ∧ (List.Sublist (applyFilters exDF5 (some (⟨1, 1, 2024⟩, ⟨31, 12, 2024⟩)) [] []).rows
        exDF5.rows
      ∧ ∀ pr ∈ (applyFilters exDF5 (some (⟨1, 1, 2024⟩, ⟨31, 12, 2024⟩)) [] []).rows,
          pr ∈ exDF5.rows ∧ ∃ d, pr.2.date = DateCell.dat d ∧
            dateLE ⟨1, 1, 2024⟩ d = true ∧ dateLE d ⟨31, 12, 2024⟩ = true) :=
  ⟨rfl, spec_c5 exDF5 ⟨1, 1, 2024⟩ ⟨31, 12, 2024⟩ [] [] rfl⟩

/-- Claim C7: with an Author_Type column present, every cleaned row's author
value is the strip-and-title normalization of some input row's value; an
actual string is trimmed and title-cased, and values outside the AI or
Human vocabulary pass through the same normalization instead of being
rejected. -/
theorem spec_c7 (df out : DataFrame) (ha : df.schema.hasAuthorType = true)
    (hok : load_dataset df = Except.ok out) :
    (∀ pr ∈ out.rows, ∃ p₀ ∈ df.rows,
        pr.2.authorType = some (authorNorm p₀.2.authorType)
        ∧ ∀ a, p₀.2.authorType = some a → pr.2.authorType = some (pyTitle (pyStrip a)))
    ∧ authorNorm (some "ai ") = "Ai"
    ∧ authorNorm (some " huMAn") = "Human"
    ∧ authorNorm (some "robot writer") = "Robot Writer" := by
  refine ⟨?_, by decide, by decide, by decide⟩
  intro pr hpr
  obtain ⟨p₀, hp₀, heq⟩ := mem_load_dataset hok hpr
  refine ⟨p₀, hp₀, ?_, ?_⟩
  · rw [heq, transformRow_authorType _ _ ha]
  · intro a haa
    rw [heq, transformRow_authorType _ _ ha, haa]
    rfl

/-- Witness for C7 at a concrete frame: the author value with trailing
whitespace normalizes to a canonical capitalized form. -/
theorem spec_c7_witness :
    exDF7.schema.hasAuthorType = true
    ∧ ((∀ pr ∈ exOut7.rows, ∃ p₀ ∈ exDF7.rows,
          pr.2.authorType = some (authorNorm p₀.2.authorType)
          ∧ ∀ a, p₀.2.authorType = some a → pr.2.authorType = some (pyTitle (pyStrip a)))
      ∧ authorNorm (some "ai ") = "Ai"
      ∧ authorNorm (some " huMAn") = "Human"
      ∧ authorNorm (some "robot writer") = "Robot Writer") :=
  ⟨rfl, spec_c7 exDF7 exOut7 rfl rfl⟩

/-- Claim C9: cleaning leaves the stored likes, comments, shares and content
fields of each surviving row exactly as they were in the matching input
row; the zero substitution happens only inside the engagement computation,
whose result is stated against the stored (possibly missing) components. -/
theorem spec_c9 (df out : DataFrame) (hok : load_dataset df = Except.ok out) :
    ∀ pr ∈ out.rows, ∃ p₀ ∈ df.rows,
      pr.2.likes = p₀.2.likes ∧ pr.2.comments = p₀.2.comments ∧ pr.2.shares = p₀.2.shares
      ∧ pr.2.contentType = p₀.2.contentType
      ∧ ((df.schema.hasLikes && df.schema.hasComments && df.schema.hasShares) = true →
          pr.2.engagement =
            some (p₀.2.likes.getD 0 + p₀.2.comments.getD 0 * 2 + p₀.2.shares.getD 0 * 3)) := by
  intro pr hpr
  obtain ⟨p₀, hp₀, heq⟩ := mem_load_dataset hok hpr
  refine ⟨p₀, hp₀, ?_, ?_, ?_, ?_, ?_⟩
  · rw [heq, transformRow_likes]
  · rw [heq, transformRow_comments]
  · rw [heq, transformRow_shares]
  · rw [heq, transformRow_contentType]
  · intro h3
    rw [heq, transformRow_engagement _ _ h3]

/-- Witness for C9 at a concrete frame: a row with missing likes keeps the
missing value while its score counts the likes as zero. -/
theorem spec_c9_witness :
    ∃ p₀ ∈ exDF9.rows,
      ((0 : Nat), exRow9out).2.likes = p₀.2.likes
      ∧ ((0 : Nat), exRow9out).2.comments = p₀.2.comments
      ∧ ((0 : Nat), exRow9out).2.shares = p₀.2.shares
      ∧ ((0 : Nat), exRow9out).2.contentType = p₀.2.contentType
      ∧ ((exDF9.schema.hasLikes && exDF9.schema.hasComments && exDF9.schema.hasShares) = true →
          ((0 : Nat), exRow9out).2.engagement =
            some (p₀.2.likes.getD 0 + p₀.2.comments.getD 0 * 2 + p₀.2.shares.getD 0 * 3)) :=
  spec_c9 exDF9 exOut9 rfl ((0 : Nat), exRow9out) (List.mem_singleton.mpr rfl)

/-- Claim C10: with an Author_Type column present no cleaned row has a missing
author value; the astype(str) coercion turns a missing source value into
the literal string Nan, which then title-cases to Nan and flows through
as an ordinary category. -/
theorem spec_c10 (df out : DataFrame) (ha : df.schema.hasAuthorType = true)
    (hok : load_dataset df = Except.ok out) :
    authorNorm none = "Nan"
    ∧ (∀ pr ∈ out.rows, pr.2.authorType ≠ none)
    ∧ (∀ pr ∈ out.rows, ∃ p₀ ∈ df.rows,
        p₀.2.authorType = none → pr.2.authorType = some "Nan") := by
  refine ⟨by decide, ?_, ?_⟩
  · intro pr hpr
    obtain ⟨p₀, hp₀, heq⟩ := mem_load_dataset hok hpr
    rw [heq, transformRow_authorType _ _ ha]
    simp
  · intro pr hpr
    obtain ⟨p₀, hp₀, heq⟩ := mem_load_dataset hok hpr
    refine ⟨p₀, hp₀, ?_⟩
    intro hnone
    rw [heq, transformRow_authorType _ _ ha, hnone]
    exact congrArg some (by decide)

/-- Witness for C10 at a concrete frame whose single author cell is
missing: the cleaned value is the string Nan. -/
theorem spec_c10_witness :
    authorNorm none = "Nan"
    ∧ (∀ pr ∈ exOut10.rows, pr.2.authorType ≠ none)
    ∧ (∀ pr ∈ exOut10.rows, ∃ p₀ ∈ exDF10.rows,
        p₀.2.authorType = none → pr.2.authorType = some "Nan") :=
  spec_c10 exDF10 exOut10 rfl rfl

/-- Claim C8: a key value appears in a groupby aggregate exactly when at least
one row of the (possibly filtered) frame carries it; keys with zero rows
are absent rather than paired with a placeholder.  Stated for the generic
grouping and for the Author_Type mean of the dashboard. -/
theorem spec_c8 (rows : List (Nat × Row)) (key : Row → Option String)
    (metric : Row → Option Int) (df : DataFrame) (k : String) :
    (k ∈ (groupbyMean rows key metric).map Prod.fst ↔ ∃ pr ∈ rows, key pr.2 = some k)
    ∧ (k ∈ (engagement_by_author df).map Prod.fst ↔
        ∃ pr ∈ df.rows, pr.2.authorType = some k) := by
  constructor
  · simp [groupbyMean, List.map_map, Function.comp, List.mem_insertionSort,
      mem_dedupFirst, List.mem_filterMap]
  · simp [engagement_by_author, groupbyMean, List.map_map, Function.comp,
      List.mem_insertionSort, mem_dedupFirst, List.mem_filterMap]

/-- Claim C2 fails as stated: this input holds an exact duplicate pair plus a
third row distinct from both (trailing blank in the author cell), so it
has two distinct rows, yet the cleaned output has a single row, because
normalization runs before deduplication and collapses the third row into
the first group. -/
theorem spec_c2_counterexample :
    load_dataset exDF2 = Except.ok exOut2
    ∧ ¬ (exDF2.rows.map Prod.snd).Nodup
    ∧ (exDF2.rows.map Prod.snd).toFinset.card = 2
    ∧ exOut2.rows.length = 1 :=
  ⟨rfl, by decide, by decide, rfl⟩

/-- Claim C2 amended: the cleaned output has pairwise-distinct rows, its size
equals the number of distinct transformed rows (the input rows after the
per-row cleaning steps, not the raw input rows), it keeps the first
occurrence of each duplicate group of transformed rows in first-seen
order, and the index is renumbered contiguously from zero. -/
theorem spec_c2_amended (df out : DataFrame) (hok : load_dataset df = Except.ok out) :
    (out.rows.map Prod.snd).Nodup
    ∧ out.rows.length = (df.rows.map (fun p => transformRow df.schema p.2)).toFinset.card
    ∧ List.Sublist (out.rows.map Prod.snd) (df.rows.map (fun p => transformRow df.schema p.2))
    ∧ (∀ r, r ∈ out.rows.map Prod.snd ↔ r ∈ df.rows.map (fun p => transformRow df.schema p.2))
    ∧ out.rows.map Prod.fst = List.range out.rows.length
    ∧ (∀ a b, a ∈ out.rows.map Prod.snd → b ∈ out.rows.map Prod.snd →
        ((out.rows.map Prod.snd).indexOf a < (out.rows.map Prod.snd).indexOf b ↔
          (df.rows.map (fun p => transformRow df.schema p.2)).indexOf a <
            (df.rows.map (fun p => transformRow df.schema p.2)).indexOf b)) := by
  rw [load_dataset_eq] at hok
  have hout : (⟨outSchema df.schema,
      relabel (dropDupAux [] (df.rows.map (fun p => (p.1, transformRow df.schema p.2))))⟩ :
        DataFrame) = out :=
    (Except.ok.injEq _ _).mp hok
  subst hout
  have hmp : (df.rows.map (fun p => (p.1, transformRow df.schema p.2))).map Prod.snd =
      df.rows.map (fun p => transformRow df.schema p.2) := by
    simp [List.map_map, Function.comp]
  have hsnd :
      (relabel (dropDupAux [] (df.rows.map
          (fun p => (p.1, transformRow df.schema p.2))))).map Prod.snd =
        dedupFirstAux [] (df.rows.map (fun p => transformRow df.schema p.2)) := by
    rw [map_snd_relabel, map_snd_dropDupAux, hmp]
  refine ⟨?_, ?_, ?_, ?_, ?_, ?_⟩
  · rw [hsnd]
    exact nodup_dedupFirstAux [] _
  · have hlen : (relabel (dropDupAux [] (df.rows.map
        (fun p => (p.1, transformRow df.schema p.2))))).length =
          (dedupFirstAux [] (df.rows.map (fun p => transformRow df.schema p.2))).length := by
      rw [← hsnd, List.length_map]
    rw [hlen]
    exact length_dedupFirst _
  · rw [hsnd]
    exact dedupFirstAux_sublist [] _
  · intro r
    rw [hsnd]
    exact mem_dedupFirstAux.trans (by simp)
  · rw [map_fst_relabel, length_relabel]
  · intro a b haa hbb
    rw [hsnd] at haa hbb ⊢
    exact indexOf_dedupFirstAux haa hbb

/-- Witness for the amended C2 at the concrete duplicate-holding frame. -/
theorem spec_c2_witness :
    (exOut2.rows.map Prod.snd).Nodup
    ∧ exOut2.rows.length =
        (exDF2.rows.map (fun p => transformRow exDF2.schema p.2)).toFinset.card
    ∧ List.Sublist (exOut2.rows.map Prod.snd)
        (exDF2.rows.map (fun p => transformRow exDF2.schema p.2))
    ∧ (∀ r, r ∈ exOut2.rows.map Prod.snd ↔
        r ∈ exDF2.rows.map (fun p => transformRow exDF2.schema p.2))
    ∧ exOut2.rows.map Prod.fst = List.range exOut2.rows.length
    ∧ (∀ a b, a ∈ exOut2.rows.map Prod.snd → b ∈ exOut2.rows.map Prod.snd →
        ((exOut2.rows.map Prod.snd).indexOf a < (exOut2.rows.map Prod.snd).indexOf b ↔
          (exDF2.rows.map (fun p => transformRow exDF2.schema p.2)).indexOf a <
            (exDF2.rows.map (fun p => transformRow exDF2.schema p.2)).indexOf b)) :=
  spec_c2_amended exDF2 exOut2 rfl

end AVH
